import Mathlib

/-!
Shallow embedding of the labor-lines CRUD service
(`lambda/models`, `lambda/services/dynamodb.go`, the validation service and
the AppSync handler package), together with theorems checking the
natural-language specification against it.

Modelling conventions:
* DynamoDB is modelled as an in-memory list of marshalled items
  (`Store`); `attributevalue` marshal/unmarshal round-trips a `LaborLine`
  faithfully, so items are stored as `LaborLine` values directly.
* Network / IO failures of the store client are not representable in the
  in-memory model, so code branches that only fire on such failures are
  absent; a conditional-write failure is represented by the
  `ConditionalCheckFailedException` error string the AWS SDK produces.
* `time.Now().Unix()` and `uuid.New().String()` are threaded as explicit
  parameters (`now`, `freshId`, `placeholderId`) into the functions that
  call them.
* Go `error` results are `Option String` (`none` = nil error), carrying
  the `fmt.Errorf` message the code builds.
* Go nil slices for the optional `partId` / `notes` fields are modelled
  as `Option (List String)` (`none` = nil = field absent).
-/

/-- `models.LaborLine` (part of `lambda/models`): the sole entity, with
audit timestamps and the derived DynamoDB keys stored alongside. -/
structure LaborLine where
  laborLineId : String
  contactId : String
  accountId : String
  taskId : String
  partId : Option (List String)
  notes : Option (List String)
  createdAt : Int
  updatedAt : Int
  deletedAt : Option Int
  PK : String
  SK : String
deriving DecidableEq

/-- `models.CreateLaborLineInput`. -/
structure CreateLaborLineInput where
  contactId : String
  accountId : String
  taskId : String
  partId : Option (List String)
  notes : Option (List String)
deriving DecidableEq

/-- `models.UpdateLaborLineInput`. -/
structure UpdateLaborLineInput where
  laborLineId : String
  contactId : String
  accountId : String
  taskId : String
  partId : Option (List String)
  notes : Option (List String)
deriving DecidableEq

/-- `models.GetLaborLineInput`. -/
structure GetLaborLineInput where
  accountId : String
  taskId : String
  laborLineId : String
deriving DecidableEq

/-- `models.ListLaborLinesInput` (`taskId = ""` means the optional task
filter is absent, matching the Go zero value). -/
structure ListLaborLinesInput where
  accountId : String
  taskId : String
deriving DecidableEq

/-- `models.DeleteLaborLineInput`. -/
structure DeleteLaborLineInput where
  accountId : String
  taskId : String
  laborLineId : String
deriving DecidableEq

/-- `models.NewLaborLine`: fresh identifier, `createdAt = updatedAt = now`,
`deletedAt` left at its zero value (nil), keys derived from the input. -/
def NewLaborLine (freshId : String) (now : Int) (input : CreateLaborLineInput) : LaborLine :=
  { laborLineId := freshId
    contactId := input.contactId
    accountId := input.accountId
    taskId := input.taskId
    partId := input.partId
    notes := input.notes
    createdAt := now
    updatedAt := now
    deletedAt := none
    PK := input.accountId
    SK := input.taskId ++ "#" ++ freshId }

/-- `models.UpdateLaborLineInput.ToLaborLine`: `createdAt` is left at its
zero value (0) — the persistence layer merges the stored value in. -/
def ToLaborLine (now : Int) (input : UpdateLaborLineInput) : LaborLine :=
  { laborLineId := input.laborLineId
    contactId := input.contactId
    accountId := input.accountId
    taskId := input.taskId
    partId := input.partId
    notes := input.notes
    createdAt := 0
    updatedAt := now
    deletedAt := none
    PK := input.accountId
    SK := input.taskId ++ "#" ++ input.laborLineId }

/-- `models.LaborLine.IsDeleted`: true iff `deletedAt` is non-nil. -/
def LaborLine.isDeleted (ll : LaborLine) : Bool :=
  ll.deletedAt.isSome

/-- `models.LaborLine.SoftDelete`: sets `deletedAt = now` and refreshes
`updatedAt`. -/
def LaborLine.softDelete (now : Int) (ll : LaborLine) : LaborLine :=
  { ll with deletedAt := some now, updatedAt := now }

/-- The DynamoDB table: a bag of marshalled items keyed by (PK, SK). -/
abbrev Store := List LaborLine

/-- Point lookup by primary key, as DynamoDB `GetItem` does. -/
def findItem (store : Store) (pk sk : String) : Option LaborLine :=
  store.find? (fun it => it.PK == pk && it.SK == sk)

/-- Replace (or insert) the item at `item`'s primary key, as an
unconditional DynamoDB `PutItem` does. -/
def putReplace (store : Store) (item : LaborLine) : Store :=
  item :: store.filter (fun it => !(it.PK == item.PK && it.SK == item.SK))

/-- `PutItem` with `attribute_not_exists(PK) AND attribute_not_exists(SK)`:
fails, leaving the table untouched, iff an item already occupies the key. -/
def putItemNotExists (store : Store) (item : LaborLine) : Option String × Store :=
  match findItem store item.PK item.SK with
  | some _ => (some "ConditionalCheckFailedException", store)
  | none => (none, putReplace store item)

/-- `PutItem` with
`attribute_exists(PK) AND attribute_exists(SK) AND attribute_not_exists(deletedAt)`:
the `deletedAt` attribute is present on the stored item iff its
`DeletedAt` pointer is non-nil (`omitempty`). -/
def putItemExistsNotDeleted (store : Store) (item : LaborLine) : Option String × Store :=
  match findItem store item.PK item.SK with
  | none => (some "ConditionalCheckFailedException", store)
  | some cur =>
      if cur.isDeleted then (some "ConditionalCheckFailedException", store)
      else (none, putReplace store item)

/-- `PutItem` with `attribute_exists(PK) AND attribute_exists(SK)`. -/
def putItemExists (store : Store) (item : LaborLine) : Option String × Store :=
  match findItem store item.PK item.SK with
  | none => (some "ConditionalCheckFailedException", store)
  | some _ => (none, putReplace store item)

/-- `dynamoDBService.CreateLaborLine`: conditional put requiring the key to
be vacant. -/
def CreateLaborLine (store : Store) (ll : LaborLine) : Option String × Store :=
  match putItemNotExists store ll with
  | (some e, st) => (some ("creating labor line in DynamoDB: " ++ e), st)
  | (none, st) => (none, st)

/-- `dynamoDBService.GetLaborLine`: point lookup by the key derived from
the input's fields; a soft-deleted item is reported as not found (`none`). -/
def GetLaborLine (store : Store) (input : GetLaborLineInput) : Option LaborLine :=
  match findItem store input.accountId (input.taskId ++ "#" ++ input.laborLineId) with
  | none => none
  | some ll => if ll.isDeleted then none else some ll

/-- `dynamoDBService.UpdateLaborLine`: look up the existing record (absent
or tombstoned fails with "labor line not found"), copy its `createdAt` into
the incoming record, then conditional put requiring existence and no
tombstone. -/
def UpdateLaborLine (store : Store) (ll : LaborLine) : Option String × Store :=
  match GetLaborLine store ⟨ll.accountId, ll.taskId, ll.laborLineId⟩ with
  | none => (some "labor line not found", store)
  | some existing =>
      match putItemExistsNotDeleted store { ll with createdAt := existing.createdAt } with
      | (some e, st) => (some ("updating labor line in DynamoDB: " ++ e), st)
      | (none, st) => (none, st)

/-- `dynamoDBService.DeleteLaborLine`: look up the existing record (absent
or tombstoned fails with "labor line not found"), soft-delete it, then
conditional put requiring existence. -/
def DeleteLaborLine (now : Int) (store : Store) (input : DeleteLaborLineInput) :
    Option String × Store :=
  match GetLaborLine store ⟨input.accountId, input.taskId, input.laborLineId⟩ with
  | none => (some "labor line not found", store)
  | some existing =>
      match putItemExists store (existing.softDelete now) with
      | (some e, st) => (some ("soft deleting labor line in DynamoDB: " ++ e), st)
      | (none, st) => (none, st)

/-- `dynamoDBService.ListLaborLines`: range query by partition key,
optionally restricted to the `taskId#` sort-key prefix, then the loop skips
soft-deleted items. -/
def ListLaborLines (store : Store) (input : ListLaborLinesInput) : List LaborLine :=
  let items :=
    if input.taskId ≠ "" then
      store.filter (fun it => it.PK == input.accountId && String.startsWith it.SK (input.taskId ++ "#"))
    else
      store.filter (fun it => it.PK == input.accountId)
  items.filter (fun ll => !ll.isDeleted)

/-- Hex digit check used by the identifier grammar. -/
def isHexDig (c : Char) : Bool :=
  c.isDigit || ('a' ≤ c && c ≤ 'f') || ('A' ≤ c && c ≤ 'F')

/-- Models `uuid.Parse` succeeding (and equally the JSON schema's `uuid`
format checker) on the canonical 8-4-4-4-12 hex form — the form in which
every identifier in this system is generated and exchanged. -/
def isUUID (s : String) : Bool :=
  let cs := s.toList
  cs.length == 36 &&
    (List.range 36).all (fun i =>
      if i == 8 || i == 13 || i == 18 || i == 23 then cs.getD i ' ' == '-'
      else isHexDig (cs.getD i ' '))

/-- The map `validateData` receives: built by `ValidateCreateInput` /
`ValidateUpdateInput` with exactly the keys `laborLineId`, `accountId`,
`taskId` (always present, strings) and optionally `partId`, `notes`. -/
structure ValidationData where
  laborLineId : String
  accountId : String
  taskId : String
  partId : Option (List String)
  notes : Option (List String)
deriving DecidableEq

/-- The `partId` loop of `validationService.validateUUIDs`: first
malformed element wins, named by its index. -/
def firstBadPartErr (i : Nat) : List String → Option String
  | [] => none
  | p :: ps =>
      if isUUID p then firstBadPartErr (i + 1) ps
      else some ("invalid UUID format for partId[" ++ Nat.repr i ++ "]: " ++ p)

/-- `validationService.validateUUIDs`: checks `laborLineId`, `accountId`,
`taskId` in that order, then the `partId` array, returning the first
failure found. -/
def validateUUIDs (d : ValidationData) : Option String :=
  if ¬ isUUID d.laborLineId then
    some ("invalid UUID format for field laborLineId: " ++ d.laborLineId)
  else if ¬ isUUID d.accountId then
    some ("invalid UUID format for field accountId: " ++ d.accountId)
  else if ¬ isUUID d.taskId then
    some ("invalid UUID format for field taskId: " ++ d.taskId)
  else
    match d.partId with
    | none => none
    | some ps => firstBadPartErr 0 ps

/-- Duplicate detection for the schema's `uniqueItems` constraint. -/
def hasDup : List String → Bool
  | [] => false
  | x :: xs => xs.contains x || hasDup xs

/-- Per-index `format: uuid` violations for the `partId` array. -/
def partFormatErrs (i : Nat) : List String → List String
  | [] => []
  | p :: ps =>
      (if isUUID p then [] else ["partId." ++ Nat.repr i ++ ": Does not match format uuid"])
        ++ partFormatErrs (i + 1) ps

/-- Per-index length violations (1–1000 characters) for `notes`. -/
def noteLenErrs (i : Nat) : List String → List String
  | [] => []
  | n :: ns =>
      (if n.length < 1 then
        ["notes." ++ Nat.repr i ++ ": String length must be greater than or equal to 1"]
      else if n.length > 1000 then
        ["notes." ++ Nat.repr i ++ ": String length must be less than or equal to 1000"]
      else [])
        ++ noteLenErrs (i + 1) ns

/-- Models the gojsonschema validation of the embedded labor-line schema on
a `ValidationData` map: the required keys and `additionalProperties` checks
always pass by construction of the map, leaving the `uuid` format checks,
`partId` `uniqueItems`, and `notes` item length bounds; all violations are
collected. Error texts are abbreviated renderings of the library's
descriptions. -/
def schemaErrors (d : ValidationData) : List String :=
  (if isUUID d.laborLineId then [] else ["laborLineId: Does not match format uuid"])
    ++ (if isUUID d.accountId then [] else ["accountId: Does not match format uuid"])
    ++ (if isUUID d.taskId then [] else ["taskId: Does not match format uuid"])
    ++ (match d.partId with
        | none => []
        | some ps =>
            partFormatErrs 0 ps
              ++ (if hasDup ps then ["partId: array items must be unique"] else []))
    ++ (match d.notes with
        | none => []
        | some ns => noteLenErrs 0 ns)

/-- `validationService.validateData`: UUID format validation first,
returning its error unchanged; only then schema validation, batching every
collected violation into one message. -/
def validateData (d : ValidationData) : Option String :=
  match validateUUIDs d with
  | some e => some e
  | none =>
      let errs := schemaErrors d
      if errs.isEmpty then none
      else some ("validation failed: [" ++ String.intercalate " " errs ++ "]")

/-- `validationService.ValidateCreateInput`: the caller supplies no
identifier, so a generated placeholder (`uuid.New()`) stands in for
`laborLineId`; `contactId` is not put into the map at all. -/
def ValidateCreateInput (placeholderId : String) (input : CreateLaborLineInput) :
    Option String :=
  validateData
    { laborLineId := placeholderId
      accountId := input.accountId
      taskId := input.taskId
      partId := input.partId
      notes := input.notes }

/-- `validationService.ValidateUpdateInput`: the caller-supplied
`laborLineId` is validated as-is; `contactId` is not put into the map. -/
def ValidateUpdateInput (input : UpdateLaborLineInput) : Option String :=
  validateData
    { laborLineId := input.laborLineId
      accountId := input.accountId
      taskId := input.taskId
      partId := input.partId
      notes := input.notes }

/-- A JSON-like value, modelling the untyped `map[string]interface{}`
argument entries an AppSync event carries. -/
inductive JVal where
  | jstr : String → JVal
  | jnum : Int → JVal
  | jbool : Bool → JVal
  | jnull : JVal
  | jarr : List JVal → JVal
  | jobj : List (String × JVal) → JVal

/-- `models.AppSyncInfo` (the fields the dispatcher reads). -/
structure AppSyncInfo where
  fieldName : String
  parentTypeName : String

/-- `models.AppSyncEvent` (the fields the dispatcher reads). -/
structure AppSyncEvent where
  arguments : List (String × JVal)
  info : AppSyncInfo

/-- `models.AppSyncError`; `errorType` is the struct's `Type` field
(JSON name "type"). -/
structure AppSyncError where
  message : String
  errorType : String
deriving DecidableEq

/-- The `Data interface{}` payloads the handlers put in a response:
a single record (create/get), a possibly-nil record pointer (update's
re-fetch), a list (list), or the delete success map. -/
inductive ResponseData where
  | line : LaborLine → ResponseData
  | lineOpt : Option LaborLine → ResponseData
  | lines : List LaborLine → ResponseData
  | deleteAck : ResponseData
deriving DecidableEq

/-- `models.AppSyncResponse`. -/
structure AppSyncResponse where
  data : Option ResponseData
  error : Option AppSyncError
deriving DecidableEq

/-- A handler's full Go result: the response, the handler's own `error`
return (nil on every path in the source), and the table after the call. -/
structure HandlerOut where
  resp : AppSyncResponse
  goErr : Option String
  store : Store
deriving DecidableEq

/-- `json.Unmarshal` of a JSON value into a Go `string` struct field:
absent or null leaves the zero value, a string sets it, anything else is a
type error. -/
def getStrField (fields : List (String × JVal)) (key : String) : Except String String :=
  match fields.lookup key with
  | none => .ok ""
  | some (.jstr s) => .ok s
  | some .jnull => .ok ""
  | some _ => .error ("cannot unmarshal into string field " ++ key)

/-- `json.Unmarshal` of a JSON value into a Go `[]string` struct field:
absent or null leaves the nil slice, an array of strings sets it. -/
def getStrListField (fields : List (String × JVal)) (key : String) :
    Except String (Option (List String)) :=
  match fields.lookup key with
  | none => .ok none
  | some .jnull => .ok none
  | some (.jarr xs) =>
      (xs.mapM (fun (v : JVal) =>
        match v with
        | JVal.jstr s => (Except.ok s : Except String String)
        | _ => Except.error ("cannot unmarshal into string array field " ++ key))).map some
  | some _ => .error ("cannot unmarshal into string array field " ++ key)

/-- Zero value of `models.CreateLaborLineInput`. -/
def zeroCreateInput : CreateLaborLineInput := ⟨"", "", "", none, none⟩

/-- Zero value of `models.UpdateLaborLineInput`. -/
def zeroUpdateInput : UpdateLaborLineInput := ⟨"", "", "", "", none, none⟩

/-- Zero value of `models.GetLaborLineInput`. -/
def zeroGetInput : GetLaborLineInput := ⟨"", "", ""⟩

/-- Zero value of `models.ListLaborLinesInput`. -/
def zeroListInput : ListLaborLinesInput := ⟨"", ""⟩

/-- Zero value of `models.DeleteLaborLineInput`. -/
def zeroDeleteInput : DeleteLaborLineInput := ⟨"", "", ""⟩

/-- Unmarshalling the `input` argument into `CreateLaborLineInput`. -/
def decodeCreateInput (j : JVal) : Except String CreateLaborLineInput :=
  match j with
  | .jnull => .ok zeroCreateInput
  | .jobj fields => do
      let contactId ← getStrField fields "contactId"
      let accountId ← getStrField fields "accountId"
      let taskId ← getStrField fields "taskId"
      let partId ← getStrListField fields "partId"
      let notes ← getStrListField fields "notes"
      .ok ⟨contactId, accountId, taskId, partId, notes⟩
  | _ => .error "cannot unmarshal into CreateLaborLineInput"

/-- Unmarshalling the `input` argument into `UpdateLaborLineInput`. -/
def decodeUpdateInput (j : JVal) : Except String UpdateLaborLineInput :=
  match j with
  | .jnull => .ok zeroUpdateInput
  | .jobj fields => do
      let laborLineId ← getStrField fields "laborLineId"
      let contactId ← getStrField fields "contactId"
      let accountId ← getStrField fields "accountId"
      let taskId ← getStrField fields "taskId"
      let partId ← getStrListField fields "partId"
      let notes ← getStrListField fields "notes"
      .ok ⟨laborLineId, contactId, accountId, taskId, partId, notes⟩
  | _ => .error "cannot unmarshal into UpdateLaborLineInput"

/-- Unmarshalling the `input` argument into `GetLaborLineInput`. -/
def decodeGetInput (j : JVal) : Except String GetLaborLineInput :=
  match j with
  | .jnull => .ok zeroGetInput
  | .jobj fields => do
      let accountId ← getStrField fields "accountId"
      let taskId ← getStrField fields "taskId"
      let laborLineId ← getStrField fields "laborLineId"
      .ok ⟨accountId, taskId, laborLineId⟩
  | _ => .error "cannot unmarshal into GetLaborLineInput"

/-- Unmarshalling the `input` argument into `ListLaborLinesInput`. -/
def decodeListInput (j : JVal) : Except String ListLaborLinesInput :=
  match j with
  | .jnull => .ok zeroListInput
  | .jobj fields => do
      let accountId ← getStrField fields "accountId"
      let taskId ← getStrField fields "taskId"
      .ok ⟨accountId, taskId⟩
  | _ => .error "cannot unmarshal into ListLaborLinesInput"

/-- Unmarshalling the `input` argument into `DeleteLaborLineInput`. -/
def decodeDeleteInput (j : JVal) : Except String DeleteLaborLineInput :=
  match j with
  | .jnull => .ok zeroDeleteInput
  | .jobj fields => do
      let accountId ← getStrField fields "accountId"
      let taskId ← getStrField fields "taskId"
      let laborLineId ← getStrField fields "laborLineId"
      .ok ⟨accountId, taskId, laborLineId⟩
  | _ => .error "cannot unmarshal into DeleteLaborLineInput"

/-- `AppSyncEvent.GetInputArgument` (via `GetArgumentAs`): when the
`input` key is absent the target is left at its zero value and no error is
returned; when present, the value is re-marshalled and unmarshalled into
the target type (`dec`). -/
def getInputArgument (args : List (String × JVal)) (dec : JVal → Except String α)
    (zero : α) : Except String α :=
  match args.lookup "input" with
  | none => .ok zero
  | some v => dec v

/-- The body of `handleCreate` after the input decode: validate, build the
record, conditional create; every failure becomes an envelope error. -/
def handleCreateDecoded (placeholderId freshId : String) (now : Int) (store : Store)
    (input : CreateLaborLineInput) : HandlerOut :=
  match ValidateCreateInput placeholderId input with
  | some e =>
      ⟨⟨none, some ⟨"validation failed: " ++ e, "ValidationError"⟩⟩, none, store⟩
  | none =>
      let ll := NewLaborLine freshId now input
      match CreateLaborLine store ll with
      | (some _, st) =>
          ⟨⟨none, some ⟨"failed to create labor line", "InternalError"⟩⟩, none, st⟩
      | (none, st) => ⟨⟨some (.line ll), none⟩, none, st⟩

/-- `LaborLineHandler.handleCreate`. -/
def handleCreate (placeholderId freshId : String) (now : Int) (store : Store)
    (event : AppSyncEvent) : HandlerOut :=
  match getInputArgument event.arguments decodeCreateInput zeroCreateInput with
  | .error e => ⟨⟨none, some ⟨"invalid input: " ++ e, "ValidationError"⟩⟩, none, store⟩
  | .ok input => handleCreateDecoded placeholderId freshId now store input

/-- The body of `handleUpdate` after the input decode: validate, convert,
update, then re-fetch the persisted record for the response payload. -/
def handleUpdateDecoded (now : Int) (store : Store) (input : UpdateLaborLineInput) :
    HandlerOut :=
  match ValidateUpdateInput input with
  | some e =>
      ⟨⟨none, some ⟨"validation failed: " ++ e, "ValidationError"⟩⟩, none, store⟩
  | none =>
      match UpdateLaborLine store (ToLaborLine now input) with
      | (some _, st) =>
          ⟨⟨none, some ⟨"failed to update labor line", "InternalError"⟩⟩, none, st⟩
      | (none, st) =>
          let updated := GetLaborLine st ⟨input.accountId, input.taskId, input.laborLineId⟩
          ⟨⟨some (.lineOpt updated), none⟩, none, st⟩

/-- `LaborLineHandler.handleUpdate`. -/
def handleUpdate (now : Int) (store : Store) (event : AppSyncEvent) : HandlerOut :=
  match getInputArgument event.arguments decodeUpdateInput zeroUpdateInput with
  | .error e => ⟨⟨none, some ⟨"invalid input: " ++ e, "ValidationError"⟩⟩, none, store⟩
  | .ok input => handleUpdateDecoded now store input

/-- The body of `handleDelete` after the input decode: any service failure
(including "labor line not found") is surfaced as `InternalError`. -/
def handleDeleteDecoded (now : Int) (store : Store) (input : DeleteLaborLineInput) :
    HandlerOut :=
  match DeleteLaborLine now store input with
  | (some _, st) =>
      ⟨⟨none, some ⟨"failed to delete labor line", "InternalError"⟩⟩, none, st⟩
  | (none, st) => ⟨⟨some .deleteAck, none⟩, none, st⟩

/-- `LaborLineHandler.handleDelete`. -/
def handleDelete (now : Int) (store : Store) (event : AppSyncEvent) : HandlerOut :=
  match getInputArgument event.arguments decodeDeleteInput zeroDeleteInput with
  | .error e => ⟨⟨none, some ⟨"invalid input: " ++ e, "ValidationError"⟩⟩, none, store⟩
  | .ok input => handleDeleteDecoded now store input

/-- The body of `handleGet` after the input decode: nil result becomes the
`NotFound` envelope. -/
def handleGetDecoded (store : Store) (input : GetLaborLineInput) : HandlerOut :=
  match GetLaborLine store input with
  | none => ⟨⟨none, some ⟨"labor line not found", "NotFound"⟩⟩, none, store⟩
  | some ll => ⟨⟨some (.line ll), none⟩, none, store⟩

/-- `LaborLineHandler.handleGet`. -/
def handleGet (store : Store) (event : AppSyncEvent) : HandlerOut :=
  match getInputArgument event.arguments decodeGetInput zeroGetInput with
  | .error e => ⟨⟨none, some ⟨"invalid input: " ++ e, "ValidationError"⟩⟩, none, store⟩
  | .ok input => handleGetDecoded store input

/-- The body of `handleList` after the input decode. -/
def handleListDecoded (store : Store) (input : ListLaborLinesInput) : HandlerOut :=
  ⟨⟨some (.lines (ListLaborLines store input)), none⟩, none, store⟩

/-- `LaborLineHandler.handleList`. -/
def handleList (store : Store) (event : AppSyncEvent) : HandlerOut :=
  match getInputArgument event.arguments decodeListInput zeroListInput with
  | .error e => ⟨⟨none, some ⟨"invalid input: " ++ e, "ValidationError"⟩⟩, none, store⟩
  | .ok input => handleListDecoded store input

/-- `LaborLineHandler.HandleAppSyncEvent`: dispatch on
`event.Info.FieldName`; any unrecognized name yields the structured
`UnsupportedOperation` envelope with a nil Go error. -/
def HandleAppSyncEvent (placeholderId freshId : String) (now : Int) (store : Store)
    (event : AppSyncEvent) : HandlerOut :=
  let f := event.info.fieldName
  if f = "createLaborLine" then handleCreate placeholderId freshId now store event
  else if f = "updateLaborLine" then handleUpdate now store event
  else if f = "deleteLaborLine" then handleDelete now store event
  else if f = "getLaborLine" then handleGet store event
  else if f = "listLaborLines" then handleList store event
  else
    ⟨⟨none, some ⟨"unsupported operation: " ++ f, "UnsupportedOperation"⟩⟩, none, store⟩

/-- Characterization of a successful point read: the item is at the
derived key and is not tombstoned. -/
theorem getLaborLine_some_iff (store : Store) (gi : GetLaborLineInput) (ll : LaborLine) :
    GetLaborLine store gi = some ll ↔
      findItem store gi.accountId (gi.taskId ++ "#" ++ gi.laborLineId) = some ll ∧
        ll.isDeleted = false := by
  cases hf : findItem store gi.accountId (gi.taskId ++ "#" ++ gi.laborLineId) with
  | none => simp [GetLaborLine, hf]
  | some x =>
      by_cases hd : x.isDeleted
      · simp only [GetLaborLine, hf, hd, if_true]
        constructor
        · intro h; cases h
        · rintro ⟨hx, hdel⟩
          cases hx
          rw [hd] at hdel
          cases hdel
      · simp only [GetLaborLine, hf, hd, if_false]
        constructor
        · rintro h; cases h; exact ⟨rfl, by simpa using hd⟩
        · rintro ⟨hx, _⟩; cases hx; rfl

/-- A replacing put leaves its item readable at its own key. -/
theorem findItem_putReplace_self (store : Store) (item : LaborLine) :
    findItem (putReplace store item) item.PK item.SK = some item := by
  simp [findItem, putReplace, List.find?_cons]

/-- `isDeleted` is false exactly when `deletedAt` is nil. -/
theorem isDeleted_false_iff (ll : LaborLine) :
    ll.isDeleted = false ↔ ll.deletedAt = none := by
  cases h : ll.deletedAt <;> simp [LaborLine.isDeleted, h]

/-- The first-malformed-element scan over `partId` reports the first bad
index, offset by the running counter. -/
theorem firstBadPartErr_spec (ps : List String) (i k : Nat) (hlen : i < ps.length)
    (hgood : ∀ j, j < i → isUUID (ps.getD j "") = true)
    (hbad : isUUID (ps.getD i "") = false) :
    firstBadPartErr k ps =
      some ("invalid UUID format for partId[" ++ Nat.repr (k + i) ++ "]: " ++ ps.getD i "") := by
  induction ps generalizing i k with
  | nil => simp at hlen
  | cons p ps ih =>
      cases i with
      | zero =>
          simp only [List.getD_cons_zero] at hbad
          simp [firstBadPartErr, hbad]
      | succ n =>
          have hp : isUUID p = true := by
            have := hgood 0 (Nat.succ_pos n)
            simpa using this
          simp only [List.getD_cons_succ] at hbad
          have hgood2 : ∀ j, j < n → isUUID (ps.getD j "") = true := by
            intro j hj
            have := hgood (j + 1) (by omega)
            simpa using this
          have hlen2 : n < ps.length := by simpa using hlen
          have := ih n (k + 1) hlen2 hgood2 hbad
          simp only [firstBadPartErr, hp, if_true]
          rw [this]
          have harith : k + 1 + n = k + (n + 1) := by omega
          rw [harith]
          simp [List.getD_cons_succ]

/-- A well-formed account identifier used for concrete checks. -/
def uuidA : String := "aaaaaaaa-aaaa-aaaa-aaaa-aaaaaaaaaaaa"

/-- A well-formed task identifier used for concrete checks. -/
def uuidT : String := "bbbbbbbb-bbbb-bbbb-bbbb-bbbbbbbbbbbb"

/-- A well-formed labor-line identifier used for concrete checks. -/
def uuidL : String := "cccccccc-cccc-cccc-cccc-cccccccccccc"

/-- A well-formed placeholder / part identifier used for concrete checks. -/
def uuidP : String := "dddddddd-dddd-dddd-dddd-dddddddddddd"

/-- A concrete stored record satisfying the derived-key invariant. -/
def sampleLine : LaborLine :=
  { laborLineId := uuidL
    contactId := "contact-1"
    accountId := uuidA
    taskId := uuidT
    partId := none
    notes := none
    createdAt := 10
    updatedAt := 20
    deletedAt := none
    PK := uuidA
    SK := uuidT ++ "#" ++ uuidL }

/-- The delete/get input addressing `sampleLine`. -/
def sampleDeleteInput : DeleteLaborLineInput := ⟨uuidA, uuidT, uuidL⟩

/-- A delete event whose `input` argument addresses `sampleLine`. -/
def sampleDeleteEvent : AppSyncEvent :=
  { arguments :=
      [("input", JVal.jobj
        [("accountId", JVal.jstr uuidA),
         ("taskId", JVal.jstr uuidT),
         ("laborLineId", JVal.jstr uuidL)])]
    info := ⟨"deleteLaborLine", "Mutation"⟩ }

/-- C2: a create whose derived key already holds an item fails with the
store's conditional-check (conflict) failure, and the table — in
particular the pre-existing record at that key — is left unchanged. -/
theorem create_conflict_leaves_existing_unchanged (store : Store) (ll ex : LaborLine)
    (h : findItem store ll.PK ll.SK = some ex) :
    (CreateLaborLine store ll).1 =
      some "creating labor line in DynamoDB: ConditionalCheckFailedException" ∧
    (CreateLaborLine store ll).2 = store ∧
    findItem (CreateLaborLine store ll).2 ll.PK ll.SK = some ex := by
  simp [CreateLaborLine, putItemNotExists, h]

/-- C2 witness: creating a second record at `sampleLine`'s key fails and
leaves `sampleLine` in place. -/
theorem create_conflict_leaves_existing_unchanged_w :
    findItem [sampleLine] sampleLine.PK sampleLine.SK = some sampleLine ∧
    (CreateLaborLine [sampleLine] sampleLine).1 =
      some "creating labor line in DynamoDB: ConditionalCheckFailedException" ∧
    findItem (CreateLaborLine [sampleLine] sampleLine).2 sampleLine.PK sampleLine.SK =
      some sampleLine := by
  have h : findItem [sampleLine] sampleLine.PK sampleLine.SK = some sampleLine := by decide
  have := create_conflict_leaves_existing_unchanged [sampleLine] sampleLine sampleLine h
  exact ⟨h, this.1, this.2.2⟩

/-- C8: an unrecognized operation name yields the structured
`UnsupportedOperation` envelope with no data, an untouched table, and a
nil Go error (no transport-level failure). -/
theorem unknown_operation_structured_envelope (placeholderId freshId : String) (now : Int)
    (store : Store) (event : AppSyncEvent)
    (h : event.info.fieldName ∉
      ["createLaborLine", "updateLaborLine", "deleteLaborLine", "getLaborLine",
        "listLaborLines"]) :
    HandleAppSyncEvent placeholderId freshId now store event =
      ⟨⟨none, some ⟨"unsupported operation: " ++ event.info.fieldName,
        "UnsupportedOperation"⟩⟩, none, store⟩ := by
  simp only [List.mem_cons, List.mem_singleton, not_or] at h
  obtain ⟨h1, h2, h3, h4, h5, -⟩ := h
  simp [HandleAppSyncEvent, h1, h2, h3, h4, h5]

/-- C8 witness: dispatching the unknown operation "frobnicate". -/
theorem unknown_operation_structured_envelope_w :
    HandleAppSyncEvent "p" "f" 0 [] ⟨[], ⟨"frobnicate", "Mutation"⟩⟩ =
      ⟨⟨none, some ⟨"unsupported operation: frobnicate", "UnsupportedOperation"⟩⟩,
        none, []⟩ :=
  unknown_operation_structured_envelope "p" "f" 0 [] ⟨[], ⟨"frobnicate", "Mutation"⟩⟩
    (by decide)

/-- C9: neither create nor update validation inspects `contactId` — the
validation map is built without it — and the record constructors pass it
through to the stored record unchanged. -/
theorem validation_ignores_contactId (placeholderId c1 c2 freshId : String) (now : Int)
    (input : CreateLaborLineInput) (uinput : UpdateLaborLineInput) :
    ValidateCreateInput placeholderId { input with contactId := c1 } =
      ValidateCreateInput placeholderId { input with contactId := c2 } ∧
    ValidateUpdateInput { uinput with contactId := c1 } =
      ValidateUpdateInput { uinput with contactId := c2 } ∧
    (NewLaborLine freshId now input).contactId = input.contactId ∧
    (ToLaborLine now uinput).contactId = uinput.contactId :=
  ⟨rfl, rfl, rfl, rfl⟩

/-- C5: tombstoned records are invisible — a successful get never returns
one, every listed record is untombstoned, and a tombstoned item at the
looked-up key makes get report not-found. -/
theorem tombstones_never_returned (store : Store) (gi : GetLaborLineInput)
    (li : ListLaborLinesInput) :
    (∀ ll, GetLaborLine store gi = some ll → ll.deletedAt = none) ∧
    (∀ ll, ll ∈ ListLaborLines store li → ll.deletedAt = none) ∧
    (∀ ll, findItem store gi.accountId (gi.taskId ++ "#" ++ gi.laborLineId) = some ll →
      ll.isDeleted = true → GetLaborLine store gi = none) := by
  refine ⟨?_, ?_, ?_⟩
  · intro ll h
    have := ((getLaborLine_some_iff store gi ll).mp h).2
    exact (isDeleted_false_iff ll).mp this
  · intro ll h
    simp only [ListLaborLines] at h
    rw [List.mem_filter] at h
    have : ll.isDeleted = false := by
      have h2 := h.2
      simpa using h2
    exact (isDeleted_false_iff ll).mp this
  · intro ll h hd
    simp [GetLaborLine, h, hd]

/-- C5 witness: a store holding one live and one tombstoned record. -/
theorem tombstones_never_returned_w :
    GetLaborLine [LaborLine.softDelete 30 sampleLine] ⟨uuidA, uuidT, uuidL⟩ = none ∧
    ListLaborLines [sampleLine, LaborLine.softDelete 30 sampleLine] ⟨uuidA, ""⟩ =
      [sampleLine] := by
  constructor
  · exact (tombstones_never_returned [LaborLine.softDelete 30 sampleLine]
      ⟨uuidA, uuidT, uuidL⟩ ⟨uuidA, ""⟩).2.2 (LaborLine.softDelete 30 sampleLine)
      (by decide) (by decide)
  · decide

/-- The derived-key invariant of §3 of the spec: the stored partition key
is `accountId` and the stored sort key is `taskId#laborLineId`. -/
def keyInvariant (ll : LaborLine) : Prop :=
  ll.PK = ll.accountId ∧ ll.SK = ll.taskId ++ "#" ++ ll.laborLineId

/-- C7: both record constructors establish the derived-key invariant, the
soft-delete mutation and the `createdAt` merge preserve it, and a record
returned by get sits exactly at the key derived from the lookup input. -/
theorem derived_key_invariant (freshId : String) (now c : Int)
    (ci : CreateLaborLineInput) (ui : UpdateLaborLineInput) (gi : GetLaborLineInput)
    (ll : LaborLine) (store : Store) :
    keyInvariant (NewLaborLine freshId now ci) ∧
    keyInvariant (ToLaborLine now ui) ∧
    (keyInvariant ll → keyInvariant (LaborLine.softDelete now ll)) ∧
    (keyInvariant ll → keyInvariant { ll with createdAt := c }) ∧
    (GetLaborLine store gi = some ll →
      ll.PK = gi.accountId ∧ ll.SK = gi.taskId ++ "#" ++ gi.laborLineId) := by
  refine ⟨⟨rfl, rfl⟩, ⟨rfl, rfl⟩, ?_, ?_, ?_⟩
  · rintro ⟨h1, h2⟩
    exact ⟨h1, h2⟩
  · rintro ⟨h1, h2⟩
    exact ⟨h1, h2⟩
  · intro h
    have hf := ((getLaborLine_some_iff store gi ll).mp h).1
    have hp := List.find?_some hf
    have := And.intro (Bool.and_elim_left hp) (Bool.and_elim_right hp)
    constructor
    · exact eq_of_beq this.1
    · exact eq_of_beq this.2

/-- C7 witness: the invariant instantiated on `sampleLine` and its
soft-deleted form, and a concrete successful lookup. -/
theorem derived_key_invariant_w :
    keyInvariant (LaborLine.softDelete 30 sampleLine) ∧
    (sampleLine.PK = uuidA ∧ sampleLine.SK = uuidT ++ "#" ++ uuidL) := by
  have h := derived_key_invariant uuidL 30 10 ⟨"c", uuidA, uuidT, none, none⟩
    ⟨uuidL, "c", uuidA, uuidT, none, none⟩ ⟨uuidA, uuidT, uuidL⟩ sampleLine [sampleLine]
  refine ⟨h.2.2.1 ⟨by decide, by decide⟩, h.2.2.2.2 (by decide)⟩

/-- C10: an event whose arguments lack the `input` key decodes with no
error into the zero-valued input; the get handler proceeds past decoding
(its only possible envelope error is `NotFound`, never a decode-level
`ValidationError`). -/
theorem missing_input_decodes_to_zero (store : Store) (event : AppSyncEvent)
    (h : event.arguments.lookup "input" = none) :
    getInputArgument event.arguments decodeGetInput zeroGetInput = .ok zeroGetInput ∧
    handleGet store event = handleGetDecoded store zeroGetInput ∧
    (∀ e, (handleGet store event).resp.error = some e → e.errorType = "NotFound") := by
  have hdec : getInputArgument event.arguments decodeGetInput zeroGetInput =
      .ok zeroGetInput := by
    simp [getInputArgument, h]
  refine ⟨hdec, ?_, ?_⟩
  · simp [handleGet, hdec]
  · intro e he
    rw [show handleGet store event = handleGetDecoded store zeroGetInput by
      simp [handleGet, hdec]] at he
    unfold handleGetDecoded at he
    cases hg : GetLaborLine store zeroGetInput with
    | none =>
        rw [hg] at he
        injection he with he2
        rw [← he2]
    | some x =>
        rw [hg] at he
        simp at he

/-- C10 witness: an event carrying only an unrelated argument key. -/
theorem missing_input_decodes_to_zero_w :
    getInputArgument ([("foo", JVal.jstr "bar")]) decodeGetInput zeroGetInput =
      .ok zeroGetInput ∧
    (handleGet [] ⟨[("foo", JVal.jstr "bar")], ⟨"getLaborLine", "Query"⟩⟩).resp.error =
      some ⟨"labor line not found", "NotFound"⟩ := by
  have h := missing_input_decodes_to_zero []
    ⟨[("foo", JVal.jstr "bar")], ⟨"getLaborLine", "Query"⟩⟩ (by rfl)
  exact ⟨h.1, by rw [h.2.1]; rfl⟩

/-- C4: updating an existing, non-tombstoned record succeeds and persists
a record with the original stored `createdAt` and an `updatedAt` (the
invocation time) at least the pre-update `updatedAt`. -/
theorem update_preserves_createdAt_advances_updatedAt (store : Store)
    (input : UpdateLaborLineInput) (now : Int) (ex : LaborLine)
    (hex : GetLaborLine store ⟨input.accountId, input.taskId, input.laborLineId⟩ = some ex)
    (hclock : ex.updatedAt ≤ now) :
    (UpdateLaborLine store (ToLaborLine now input)).1 = none ∧
    ∃ w, findItem (UpdateLaborLine store (ToLaborLine now input)).2
        input.accountId (input.taskId ++ "#" ++ input.laborLineId) = some w ∧
      w.createdAt = ex.createdAt ∧ ex.updatedAt ≤ w.updatedAt ∧ w.updatedAt = now := by
  have hpair := (getLaborLine_some_iff store
    ⟨input.accountId, input.taskId, input.laborLineId⟩ ex).mp hex
  have hfind : findItem store input.accountId (input.taskId ++ "#" ++ input.laborLineId) =
      some ex := hpair.1
  have hnd : ex.isDeleted = false := hpair.2
  have hrun : UpdateLaborLine store (ToLaborLine now input) =
      (none, putReplace store { ToLaborLine now input with createdAt := ex.createdAt }) := by
    simp only [UpdateLaborLine, ToLaborLine]
    rw [show (GetLaborLine store ⟨input.accountId, input.taskId, input.laborLineId⟩) =
      some ex from hex]
    simp only [putItemExistsNotDeleted]
    rw [show findItem store input.accountId (input.taskId ++ "#" ++ input.laborLineId) =
      some ex from hfind]
    simp [hnd]
  refine ⟨by rw [hrun], ⟨{ ToLaborLine now input with createdAt := ex.createdAt }, ?_,
    rfl, hclock, rfl⟩⟩
  rw [hrun]
  exact findItem_putReplace_self store { ToLaborLine now input with createdAt := ex.createdAt }

/-- C4 witness: updating `sampleLine` (stored `createdAt = 10`,
`updatedAt = 20`) at time 25 keeps `createdAt = 10` and sets
`updatedAt = 25 ≥ 20`. -/
theorem update_preserves_createdAt_advances_updatedAt_w :
    (UpdateLaborLine [sampleLine]
      (ToLaborLine 25 ⟨uuidL, "contact-2", uuidA, uuidT, none, none⟩)).1 = none ∧
    ∃ w, findItem (UpdateLaborLine [sampleLine]
        (ToLaborLine 25 ⟨uuidL, "contact-2", uuidA, uuidT, none, none⟩)).2
        uuidA (uuidT ++ "#" ++ uuidL) = some w ∧
      w.createdAt = 10 ∧ (20 : Int) ≤ w.updatedAt ∧ w.updatedAt = 25 :=
  update_preserves_createdAt_advances_updatedAt [sampleLine]
    ⟨uuidL, "contact-2", uuidA, uuidT, none, none⟩ 25 sampleLine (by decide) (by decide)

/-- C6: the record built for a valid create carries the freshly generated
identifier (distinct from every caller-supplied value when the generated
identifier collides with none of them), has `createdAt = updatedAt` and no
`deletedAt`; and when validation and the conditional write succeed the
create handler returns exactly this record as its data payload. -/
theorem create_returns_fresh_record (freshId placeholderId : String) (now : Int)
    (input : CreateLaborLineInput) (store : Store)
    (hfresh : freshId ≠ input.contactId ∧ freshId ≠ input.accountId ∧
      freshId ≠ input.taskId ∧ ∀ p ∈ (input.partId.getD []), freshId ≠ p) :
    (NewLaborLine freshId now input).laborLineId = freshId ∧
    (NewLaborLine freshId now input).laborLineId ≠ input.contactId ∧
    (NewLaborLine freshId now input).laborLineId ≠ input.accountId ∧
    (NewLaborLine freshId now input).laborLineId ≠ input.taskId ∧
    (∀ p ∈ (input.partId.getD []), (NewLaborLine freshId now input).laborLineId ≠ p) ∧
    (NewLaborLine freshId now input).createdAt = (NewLaborLine freshId now input).updatedAt ∧
    (NewLaborLine freshId now input).deletedAt = none ∧
    (ValidateCreateInput placeholderId input = none →
      (CreateLaborLine store (NewLaborLine freshId now input)).1 = none →
      (handleCreateDecoded placeholderId freshId now store input).resp.data =
        some (ResponseData.line (NewLaborLine freshId now input))) := by
  obtain ⟨h1, h2, h3, h4⟩ := hfresh
  refine ⟨rfl, h1, h2, h3, h4, rfl, rfl, ?_⟩
  intro hv hc
  rcases hcc : CreateLaborLine store (NewLaborLine freshId now input) with ⟨e, st⟩
  rw [hcc] at hc
  simp only at hc
  cases e with
  | some x => cases hc
  | none => simp [handleCreateDecoded, hv, hcc]

/-- C6 witness: a valid create input, a fresh identifier distinct from
every supplied value, an empty table. -/
theorem create_returns_fresh_record_w :
    (NewLaborLine uuidL 7 ⟨"contact-1", uuidA, uuidT, some [uuidP], none⟩).laborLineId =
      uuidL ∧
    (NewLaborLine uuidL 7 ⟨"contact-1", uuidA, uuidT, some [uuidP], none⟩).createdAt =
      (NewLaborLine uuidL 7 ⟨"contact-1", uuidA, uuidT, some [uuidP], none⟩).updatedAt ∧
    (NewLaborLine uuidL 7 ⟨"contact-1", uuidA, uuidT, some [uuidP], none⟩).deletedAt =
      none ∧
    (handleCreateDecoded uuidP uuidL 7 []
        ⟨"contact-1", uuidA, uuidT, some [uuidP], none⟩).resp.data =
      some (ResponseData.line
        (NewLaborLine uuidL 7 ⟨"contact-1", uuidA, uuidT, some [uuidP], none⟩)) := by
  have h := create_returns_fresh_record uuidL uuidP 7
    ⟨"contact-1", uuidA, uuidT, some [uuidP], none⟩ []
    (by refine ⟨by decide, by decide, by decide, ?_⟩
        intro p hp
        simp only [Option.getD] at hp
        have : p = uuidP := by simpa using hp
        rw [this]
        decide)
  exact ⟨h.1, h.2.2.2.2.2.1, h.2.2.2.2.2.2.1,
    h.2.2.2.2.2.2.2 (by decide) (by decide)⟩

/-- C3: identifier-format validation runs first and its failure is
surfaced verbatim (short-circuiting before schema validation); in
particular a malformed `partId` element is the first failure reported at
its index when all preceding identifiers are well-formed. When all
identifiers are well-formed, every collected schema violation is batched
into the single failure message. -/
theorem uuid_check_short_circuits_schema_batches (d : ValidationData) :
    ((validateUUIDs d).isSome → validateData d = validateUUIDs d) ∧
    (validateUUIDs d = none → (schemaErrors d).isEmpty = false →
      validateData d =
        some ("validation failed: [" ++ String.intercalate " " (schemaErrors d) ++ "]")) ∧
    (∀ ps i, d.partId = some ps →
      isUUID d.laborLineId = true → isUUID d.accountId = true → isUUID d.taskId = true →
      i < ps.length → (∀ j, j < i → isUUID (ps.getD j "") = true) →
      isUUID (ps.getD i "") = false →
      validateData d =
        some ("invalid UUID format for partId[" ++ Nat.repr i ++ "]: " ++ ps.getD i "")) := by
  refine ⟨?_, ?_, ?_⟩
  · intro h
    cases hv : validateUUIDs d with
    | none => rw [hv] at h; cases h
    | some e => simp [validateData, hv]
  · intro hv hne
    simp [validateData, hv, hne]
  · intro ps i hps hid hacc htask hlen hgood hbad
    have hfb := firstBadPartErr_spec ps i 0 hlen hgood hbad
    have hv : validateUUIDs d =
        some ("invalid UUID format for partId[" ++ Nat.repr i ++ "]: " ++ ps.getD i "") := by
      simp only [validateUUIDs, hid, hacc, htask, not_true, if_false]
      rw [hps]
      simpa using hfb
    simp [validateData, hv]

/-- C3 witness: a payload with both a malformed `partId[0]` and a
schema-invalid empty note short-circuits on the identifier error; the same
payload with well-formed identifiers reports the batched schema error. -/
theorem uuid_check_short_circuits_schema_batches_w :
    validateData ⟨uuidP, uuidA, uuidT, some ["not-a-uuid"], some [""]⟩ =
      some "invalid UUID format for partId[0]: not-a-uuid" ∧
    validateData ⟨uuidP, uuidA, uuidT, none, some [""]⟩ =
      some "validation failed: [notes.0: String length must be greater than or equal to 1]" := by
  constructor
  · exact (uuid_check_short_circuits_schema_batches
      ⟨uuidP, uuidA, uuidT, some ["not-a-uuid"], some [""]⟩).2.2
      ["not-a-uuid"] 0 rfl (by decide) (by decide) (by decide) (by decide)
      (by intro j hj; exact absurd hj (Nat.not_lt_zero j)) (by decide)
  · exact (uuid_check_short_circuits_schema_batches
      ⟨uuidP, uuidA, uuidT, none, some [""]⟩).2.1 (by decide) (by decide)

/-- C1 counterexample: after a successful first delete of `sampleLine`,
the second delete of the same (accountId, taskId, id) fails, but the
response envelope surfaces error type `InternalError`, not `NotFound`. -/
theorem delete_twice_envelope_not_NotFound :
    (DeleteLaborLine 30 [sampleLine] sampleDeleteInput).1 = none ∧
    (handleDelete 40 (DeleteLaborLine 30 [sampleLine] sampleDeleteInput).2
        sampleDeleteEvent).resp.error =
      some ⟨"failed to delete labor line", "InternalError"⟩ ∧
    ("InternalError" : String) ≠ "NotFound" :=
  ⟨by decide, by decide, by decide⟩

/-- C1 (amended): a second delete of an already soft-deleted record fails —
the persistence layer reports "labor line not found" — but the delete
handler surfaces the failure in the envelope as `InternalError` (message
"failed to delete labor line"), leaving the table unchanged. -/
theorem second_delete_surfaces_internal_error (now : Int) (store : Store)
    (event : AppSyncEvent) (input : DeleteLaborLineInput) (ex : LaborLine)
    (hdec : getInputArgument event.arguments decodeDeleteInput zeroDeleteInput = .ok input)
    (hfind : findItem store input.accountId (input.taskId ++ "#" ++ input.laborLineId) =
      some ex)
    (hdel : ex.isDeleted = true) :
    (DeleteLaborLine now store input).1 = some "labor line not found" ∧
    (handleDelete now store event).resp =
      ⟨none, some ⟨"failed to delete labor line", "InternalError"⟩⟩ ∧
    (handleDelete now store event).store = store := by
  have hget : GetLaborLine store ⟨input.accountId, input.taskId, input.laborLineId⟩ =
      none := by
    simp [GetLaborLine, hfind, hdel]
  have hdelrun : DeleteLaborLine now store input = (some "labor line not found", store) := by
    simp only [DeleteLaborLine]
    rw [hget]
  have hh : handleDelete now store event =
      ⟨⟨none, some ⟨"failed to delete labor line", "InternalError"⟩⟩, none, store⟩ := by
    simp [handleDelete, hdec, handleDeleteDecoded, hdelrun]
  exact ⟨by rw [hdelrun], by rw [hh], by rw [hh]⟩

/-- C1 (amended) witness: the second delete of the soft-deleted
`sampleLine`, driven through the delete handler. -/
theorem second_delete_surfaces_internal_error_w :
    (DeleteLaborLine 40 [LaborLine.softDelete 30 sampleLine] sampleDeleteInput).1 =
      some "labor line not found" ∧
    (handleDelete 40 [LaborLine.softDelete 30 sampleLine] sampleDeleteEvent).resp =
      ⟨none, some ⟨"failed to delete labor line", "InternalError"⟩⟩ := by
  have h := second_delete_surfaces_internal_error 40 [LaborLine.softDelete 30 sampleLine]
    sampleDeleteEvent sampleDeleteInput (LaborLine.softDelete 30 sampleLine)
    (by rfl) (by decide) (by decide)
  exact ⟨h.1, h.2.1⟩
